import Mathlib

/-!
Verification of the MCP HTTP bridge (src/bridge.ts) against its
natural-language specification.

The embedding models the request pipeline of `MCPHttpBridge`:
`handleMCPRequest` (line parsing and dispatch), `processMCPRequest`
(response-shape classification), `makeHttpRequest` (attempt loop with
linear backoff, session-header capture, SSE and JSON normalization),
`createErrorResponse`, and `parseSSEResponse`.

JSON.parse of the JavaScript runtime is kept abstract: every definition
is parameterized by a parse function `String → Option Json`
(`none` models a thrown SyntaxError) or `String → Except String Json`
when the failure message is itself surfaced as data. Upstream HTTP
behaviour is an oracle assigning to each attempt number the outcome of
that attempt.
-/

namespace MCPBridge

/-- A JavaScript runtime JSON value, as produced by JSON.parse.
Object fields are listed in insertion order with unique keys, matching
what JSON.parse produces. Numbers are modelled as integers, which covers
every value the bridge logic inspects. -/
inductive Json where
  | null
  | bool (b : Bool)
  | num (n : Int)
  | str (s : String)
  | arr (elems : List Json)
  | obj (fields : List (String × Json))

/-- First field of an object fields list with the given key
(JavaScript property lookup on a parsed object). -/
def lookupField : List (String × Json) → String → Option Json
  | [], _ => none
  | (k, v) :: rest, key => if k = key then some v else lookupField rest key

/-- JavaScript property access `j[key]`; `none` models `undefined`
(also for non-object values, which have no such own property). -/
def Json.get? : Json → String → Option Json
  | Json.obj fields, key => lookupField fields key
  | _, _ => none

/-- JavaScript truthiness of a parsed JSON value. -/
def Json.truthy : Json → Bool
  | Json.null => false
  | Json.bool b => b
  | Json.num n => n != 0
  | Json.str s => s != ""
  | Json.arr _ => true
  | Json.obj _ => true

/-- The value of `Object.keys(x).length` for a parsed JSON value: enumerable own
properties — index count for strings and arrays, field count for
objects, zero for primitives. -/
def Json.keysLength : Json → Nat
  | Json.null => 0
  | Json.bool _ => 0
  | Json.num _ => 0
  | Json.str s => s.length
  | Json.arr elems => elems.length
  | Json.obj fields => fields.length

/-- The `responseData === ''` comparison of bridge.ts line 138. -/
def Json.isEmptyString : Json → Bool
  | Json.str "" => true
  | _ => false

/-- bridge.ts line 138: `!responseData || responseData === '' ||
Object.keys(responseData).length === 0` — the empty-response test of
`processMCPRequest`. -/
def isEmptyResponse (d : Json) : Bool :=
  !d.truthy || d.isEmptyString || d.keysLength == 0

/-- Whether `responseData.jsonrpc === '2.0'`. -/
def isJsonrpc20 : Option Json → Bool
  | some (Json.str s) => s == "2.0"
  | _ => false

/-- The JavaScript `key in obj` test for parsed objects. -/
def Json.hasKey (j : Json) (key : String) : Bool :=
  (j.get? key).isSome

/-- bridge.ts line 145: the response is already a complete MCP response
(`responseData && responseData.jsonrpc === '2.0' && ('result' in
responseData || 'error' in responseData)`). -/
def isFullReply (d : Json) : Bool :=
  d.truthy && isJsonrpc20 (d.get? "jsonrpc") && (d.hasKey "result" || d.hasKey "error")

/-- The serialized form of an optional `id` property: JSON.stringify
omits a property whose value is `undefined`, and keeps `null`. -/
def idField : Option Json → List (String × Json)
  | none => []
  | some v => [("id", v)]

/-- The serialized form of an optional `data` property of an error. -/
def dataField : Option Json → List (String × Json)
  | none => []
  | some v => [("data", v)]

/-- Drop the `id` field (serialized form of setting it to `undefined`). -/
def removeIdField : List (String × Json) → List (String × Json)
  | [] => []
  | (k, v) :: rest => if k = "id" then removeIdField rest else (k, v) :: removeIdField rest

/-- Overwrite the first `id` field in place, or append one at the end
when absent — the property order JavaScript gives to
`{...responseData, id: request.id}`. -/
def setIdFields : List (String × Json) → Json → List (String × Json)
  | [], v => [("id", v)]
  | (k, w) :: rest, v => if k = "id" then (k, v) :: rest else (k, w) :: setIdFields rest v

/-- bridge.ts lines 147-150: `{...responseData, id: request.id}`, viewed
through JSON.stringify (an `undefined` id disappears from the line). -/
def setId (d : Json) (newId : Option Json) : Json :=
  match d with
  | Json.obj fields =>
      match newId with
      | some v => Json.obj (setIdFields fields v)
      | none => Json.obj (removeIdField fields)
  | other => other

/-- bridge.ts lines 160-164: wrap a payload as
`{jsonrpc: "2.0", id, result: payload}`. -/
def wrapResult (rid : Option Json) (payload : Json) : Json :=
  Json.obj ([("jsonrpc", Json.str "2.0")] ++ idField rid ++ [("result", payload)])

/-- A serialized JSON-RPC error reply
`{jsonrpc: "2.0", id, error: {code, message, data}}`. -/
def mkErrorResponse (rid : Option Json) (code : Int) (message : String)
    (data : Option Json) : Json :=
  Json.obj ([("jsonrpc", Json.str "2.0")] ++ idField rid ++
    [("error", Json.obj ([("code", Json.num code), ("message", Json.str message)] ++
      dataField data))])

/-! ## SSE normalization (bridge.ts `parseSSEResponse`, lines 294-320) -/

/-- JavaScript `text.split('\n')` on the character list of the text. -/
def splitOnNl : List Char → List (List Char)
  | [] => [[]]
  | c :: rest =>
      if c = '\n' then [] :: splitOnNl rest
      else
        match splitOnNl rest with
        | [] => [[c]]
        | l :: ls => (c :: l) :: ls

/-- Whitespace for JavaScript `String.prototype.trim` (the ASCII part,
which is all the bridge ever meets). -/
def isJsWhitespace (c : Char) : Bool :=
  c = ' ' || c = '\t' || c = '\n' || c = '\r' || c = '\x0b' || c = '\x0c'

/-- JavaScript `text.trim()` on a character list. -/
def trimChars (l : List Char) : List Char :=
  ((l.dropWhile isJsWhitespace).reverse.dropWhile isJsWhitespace).reverse

/-- The six characters of the `data: ` field marker. -/
def dataLineStart : List Char := ['d', 'a', 't', 'a', ':', ' ']

/-- The `[DONE]` sentinel. -/
def doneMarker : List Char := ['[', 'D', 'O', 'N', 'E', ']']

/-- The loop of `parseSSEResponse`: accumulate the text after every
`data: ` marker, stopping at a `[DONE]` sentinel line. -/
def accumData : List (List Char) → List Char → List Char
  | [], acc => acc
  | line :: rest, acc =>
      if line.take 6 = dataLineStart then
        let data := line.drop 6
        if trimChars data = doneMarker then acc
        else accumData rest (acc ++ data)
      else accumData rest acc

/-- The placeholder value bridge.ts line 315 returns when the
accumulated SSE data is not valid JSON. -/
def sseParseFailure : Json :=
  Json.obj [("error", Json.str "Failed to parse SSE response")]

/-- bridge.ts lines 294-320, `parseSSEResponse`: split the body on
newlines, accumulate `data: ` fragments up to an optional `[DONE]`,
then JSON-parse the accumulation; parse failure yields the placeholder,
no data at all yields `null`. -/
def parseSSEResponse (parse : String → Option Json) (sseText : String) : Json :=
  let lines := splitOnNl sseText.toList
  let jsonData := accumData lines []
  if jsonData ≠ [] then
    match parse (String.mk jsonData) with
    | some j => j
    | none => sseParseFailure
  else Json.null

/-- Join lines with the newline character: the inverse direction of
`splitOnNl`, used to build event-stream bodies from their lines. -/
def intercalateNl : List (List Char) → List Char
  | [] => []
  | [l] => l
  | l :: ls => l ++ '\n' :: intercalateNl ls

/-- Whether `needle` occurs as a contiguous subsequence of `hay`
(JavaScript `hay.includes(needle)`). -/
def containsSeq (needle hay : List Char) : Bool :=
  hay.tails.any (fun t => needle.isPrefixOf t)

/-- bridge.ts line 208: `contentType && contentType.includes('text/event-stream')`. -/
def isSSEContentType : Option String → Bool
  | some ct => containsSeq "text/event-stream".toList ct.toList
  | none => false

/-- bridge.ts lines 206-226: normalize a successful raw text body —
SSE content type goes through `parseSSEResponse`; otherwise try
JSON.parse and fall back to the raw text unchanged. -/
def normalizeBody (parse : String → Option Json) (contentType : Option String)
    (body : String) : Json :=
  if isSSEContentType contentType then parseSSEResponse parse body
  else
    match parse body with
    | some j => j
    | none => Json.str body

/-! ## HTTP relay (bridge.ts `makeHttpRequest`, lines 177-244) -/

/-- A failure thrown by an axios POST, as `createErrorResponse`
distinguishes them: an HTTP error response (axios rejects non-2xx),
a connection-refused or timeout code, a generic Error, or some other
thrown value. -/
inductive RelayError where
  | respErr (status : Nat) (statusText : String) (data : Json)
  | connRefused
  | timedOut
  | jsError (message : String) (stack : String)
  | unknownThrown

/-- bridge.ts line 232: `error.response && error.response.status >= 400
&& error.response.status < 500` — failures that are never retried. -/
def isClientError : RelayError → Bool
  | RelayError.respErr status _ _ => 400 ≤ status && status < 500
  | _ => false

/-- What the upstream does on one HTTP attempt: a 2xx response with
headers and raw text body, or a thrown failure. -/
inductive AttemptOutcome where
  | success (contentType : Option String) (sessionHeader : Option String) (body : String)
  | failure (e : RelayError)

/-- bridge.ts lines 198-204: adopt the `mcp-session-id` response header
only when it is truthy (present and non-empty) and no session id is
currently held. -/
def adoptSession (current : Option String) (header : Option String) : Option String :=
  match header, current with
  | some h, none => if h ≠ "" then some h else none
  | _, cur => cur

/-- Everything observable about one `makeHttpRequest` call: the value
returned or thrown (`Except.error none` is the uninitialized
`lastError`, i.e. throwing `undefined`), the session id afterwards, how
many POST attempts ran, the backoff delays slept in order, and the
session header attached to each attempt. -/
structure RelayOutput where
  result : Except (Option RelayError) Json
  sessionId : Option String
  attemptsMade : Nat
  sleeps : List Nat
  sentHeaders : List (Option String)

/-- The attempt loop of `makeHttpRequest` (bridge.ts lines 181-241),
with the remaining iteration count made an explicit fuel argument:
fuel `retries + 1 - attempt` reproduces `for (attempt = 1; attempt <=
retries; attempt++)`. The oracle gives each attempt its outcome. -/
def attemptLoopAux (parse : String → Option Json) (oracle : Nat → AttemptOutcome)
    (retries : Nat) : Nat → Nat → Option String → Option RelayError → RelayOutput
  | 0, attempt, sessId, lastErr =>
      { result := Except.error lastErr, sessionId := sessId, attemptsMade := attempt - 1,
        sleeps := [], sentHeaders := [] }
  | remaining + 1, attempt, sessId, _lastErr =>
      match oracle attempt with
      | AttemptOutcome.success ct sh body =>
          { result := Except.ok (normalizeBody parse ct body),
            sessionId := adoptSession sessId sh,
            attemptsMade := attempt, sleeps := [], sentHeaders := [sessId] }
      | AttemptOutcome.failure e =>
          if isClientError e then
            { result := Except.error (some e), sessionId := sessId, attemptsMade := attempt,
              sleeps := [], sentHeaders := [sessId] }
          else
            let rest := attemptLoopAux parse oracle retries remaining (attempt + 1) sessId (some e)
            { result := rest.result, sessionId := rest.sessionId,
              attemptsMade := rest.attemptsMade,
              sleeps := (if attempt < retries then [1000 * attempt] else []) ++ rest.sleeps,
              sentHeaders := sessId :: rest.sentHeaders }

/-- Function `makeHttpRequest` (bridge.ts lines 177-244): run the attempt loop
from attempt 1 with `lastError` uninitialized. -/
def attemptLoop (parse : String → Option Json) (oracle : Nat → AttemptOutcome)
    (retries : Nat) (sessId : Option String) : RelayOutput :=
  attemptLoopAux parse oracle retries retries 1 sessId none

/-! ## Dispatcher (bridge.ts `processMCPRequest` and `handleMCPRequest`) -/

/-- The configuration handed to the bridge constructor. Only `retries`
drives the logic modelled here; the other fields feed the HTTP client
the oracle abstracts. -/
structure BridgeConfig where
  endpoint : String
  bearerToken : String
  timeout : Nat
  retries : Nat
  rejectUnauthorized : Option Bool

/-- The parsed inbound message. Only its `id` drives the pipeline
(`method` and `params` are forwarded opaquely inside the POST body,
which the oracle abstracts); `none` models an absent id, i.e. a
notification. -/
structure MCPRequest where
  id : Option Json

/-- bridge.ts `createErrorResponse` (lines 246-272). -/
def createErrorResponse (rid : Option Json) (e : RelayError) : Json :=
  match e with
  | RelayError.respErr status statusText data =>
      mkErrorResponse rid (-32000) ("HTTP " ++ toString status ++ ": " ++ statusText)
        (some data)
  | RelayError.connRefused =>
      mkErrorResponse rid (-32001) "Service unavailable - connection refused" none
  | RelayError.timedOut =>
      mkErrorResponse rid (-32002) "Service timeout" none
  | RelayError.jsError message stack =>
      mkErrorResponse rid (-32603) message (some (Json.str stack))
  | RelayError.unknownThrown =>
      mkErrorResponse rid (-32603) "Internal error" none

/-- Function `createErrorResponse` applied to the value `makeHttpRequest` threw.
When the attempt loop never ran, the thrown `lastError` is `undefined`
(`none` here) and line 251 `error.response` raises a TypeError instead
of building a reply; `none` marks that crash. -/
def createErrorResponseOnThrown (rid : Option Json) : Option RelayError → Option Json
  | none => none
  | some e => some (createErrorResponse rid e)

/-- What `processMCPRequest` does with one request: return no response
(`null`), return one response object, or let a TypeError escape. -/
inductive ProcOutcome where
  | noResponse
  | response (msg : Json)
  | crash

/-- Observable behaviour of one `processMCPRequest` call together with
the relay trace it induced. -/
structure ProcResult where
  outcome : ProcOutcome
  sessionId : Option String
  attemptsMade : Nat
  sleeps : List Nat
  sentHeaders : List (Option String)

/-- bridge.ts `processMCPRequest` (lines 124-175): relay the request,
then classify the normalized payload — empty payload: no response;
already a full reply: re-stamp its id; anything else: wrap as a
result. A thrown relay failure becomes `createErrorResponse`. -/
def processMCPRequest (parse : String → Option Json) (cfg : BridgeConfig)
    (oracle : Nat → AttemptOutcome) (request : MCPRequest)
    (sessId : Option String) : ProcResult :=
  let relay := attemptLoop parse oracle cfg.retries sessId
  let out :=
    match relay.result with
    | Except.ok responseData =>
        if isEmptyResponse responseData then ProcOutcome.noResponse
        else if isFullReply responseData then
          ProcOutcome.response (setId responseData request.id)
        else ProcOutcome.response (wrapResult request.id responseData)
    | Except.error thrown =>
        match createErrorResponseOnThrown request.id thrown with
        | some r => ProcOutcome.response r
        | none => ProcOutcome.crash
  { outcome := out, sessionId := relay.sessionId, attemptsMade := relay.attemptsMade,
    sleeps := relay.sleeps, sentHeaders := relay.sentHeaders }

/-- JSON.parse failure collapsed to `Option` for the body-parsing
call sites that ignore the message. -/
def parseOpt (parseE : String → Except String Json) (s : String) : Option Json :=
  match parseE s with
  | Except.ok j => some j
  | Except.error _ => none

/-- The parse-error reply of bridge.ts lines 111-119. -/
def parseErrorResponse (msg : String) : Json :=
  mkErrorResponse none (-32700) "Invalid JSON-RPC request" (some (Json.str msg))

/-- Observable behaviour of one `handleMCPRequest` call: the message
written to stdout, if any, together with the relay trace. -/
structure HandleResult where
  output : Option Json
  sessionId : Option String
  attemptsMade : Nat
  sleeps : List Nat

/-- bridge.ts `handleMCPRequest` (lines 93-122): JSON.parse the line —
on failure emit the -32700 reply carrying the parser message as data;
on success run `processMCPRequest` and emit its non-null response. A
TypeError escaping `processMCPRequest` lands in the same catch block,
whose runtime-specific message is the `crashMsg` parameter. -/
def handleMCPRequest (parseE : String → Except String Json) (cfg : BridgeConfig)
    (oracle : Nat → AttemptOutcome) (crashMsg : String) (line : String)
    (sessId : Option String) : HandleResult :=
  match parseE line with
  | Except.error msg =>
      { output := some (parseErrorResponse msg), sessionId := sessId,
        attemptsMade := 0, sleeps := [] }
  | Except.ok j =>
      let p := processMCPRequest (parseOpt parseE) cfg oracle { id := j.get? "id" } sessId
      match p.outcome with
      | ProcOutcome.noResponse =>
          { output := none, sessionId := p.sessionId,
            attemptsMade := p.attemptsMade, sleeps := p.sleeps }
      | ProcOutcome.response r =>
          { output := some r, sessionId := p.sessionId,
            attemptsMade := p.attemptsMade, sleeps := p.sleeps }
      | ProcOutcome.crash =>
          { output := some (parseErrorResponse crashMsg), sessionId := p.sessionId,
            attemptsMade := p.attemptsMade, sleeps := p.sleeps }

/-- The process serving one framed unit after another, each with its
own upstream oracle, threading the session id; yields the outbound
message (or none) per unit. -/
def runUnits (parseE : String → Except String Json) (cfg : BridgeConfig)
    (crashMsg : String) :
    List (String × (Nat → AttemptOutcome)) → Option String → List (Option Json)
  | [], _ => []
  | (line, oracle) :: rest, sessId =>
      let h := handleMCPRequest parseE cfg oracle crashMsg line sessId
      h.output :: runUnits parseE cfg crashMsg rest h.sessionId

/-! ## Concrete fixtures for witnesses and counterexamples -/

/-- The request line of the spec scenario in section 8. -/
def reqLineFix : String := "\x7b\"jsonrpc\":\"2.0\",\"id\":1,\"method\":\"tools/list\",\"params\":\x7b\x7d\x7d"

/-- The parsed value of `reqLineFix`. -/
def reqJsonFix : Json :=
  Json.obj [("jsonrpc", Json.str "2.0"), ("id", Json.num 1),
    ("method", Json.str "tools/list"), ("params", Json.obj [])]

/-- A notification line: a well-formed request with no `id` member. -/
def notifLineFix : String := "\x7b\"jsonrpc\":\"2.0\",\"method\":\"notify\"\x7d"

/-- The parsed value of `notifLineFix`. -/
def notifJsonFix : Json :=
  Json.obj [("jsonrpc", Json.str "2.0"), ("method", Json.str "notify")]

/-- An upstream body that is already a complete JSON-RPC reply, with an
id different from the inbound one. -/
def fullReplyBodyFix : String := "\x7b\"jsonrpc\":\"2.0\",\"id\":7,\"result\":\x7b\x7d\x7d"

/-- The parsed value of `fullReplyBodyFix`. -/
def fullReplyJsonFix : Json :=
  Json.obj [("jsonrpc", Json.str "2.0"), ("id", Json.num 7), ("result", Json.obj [])]

/-- A JSON.parse model agreeing with the JavaScript runtime on the
handful of texts the witnesses exercise; everything else is treated as
a parse failure. -/
def parseFix : String → Except String Json := fun s =>
  if s = reqLineFix then Except.ok reqJsonFix
  else if s = notifLineFix then Except.ok notifJsonFix
  else if s = fullReplyBodyFix then Except.ok fullReplyJsonFix
  else if s = "\x7b\x7d" then Except.ok (Json.obj [])
  else if s = "0" then Except.ok (Json.num 0)
  else Except.error "Unexpected token"

/-- A bridge configuration with the given retry budget. -/
def cfgFix (r : Nat) : BridgeConfig :=
  { endpoint := "https://test.example.com/mcp", bearerToken := "test-token",
    timeout := 5000, retries := r, rejectUnauthorized := none }

/-- An upstream that always answers 2xx with a JSON content type, no
session header and the given body. -/
def oracleJsonBody (body : String) : Nat → AttemptOutcome :=
  fun _ => AttemptOutcome.success (some "application/json") none body

/-- A JSON.parse model for the SSE round-trip witness: it recognizes
the single document the fragments reconstitute. -/
def parseC6Fix : String → Option Json := fun s =>
  if s = "\x7b\"a\":1\x7d" then some (Json.obj [("a", Json.num 1)]) else none

/-- A JSON.parse model on which every text fails to parse, as
`\x7binvalid json\x7d` does under the JavaScript runtime. -/
def parseNoneFix : String → Option Json := fun _ => none

/-- An SSE body carrying invalid JSON in its data line. -/
def sseBadBodyFix : String := "data: \x7binvalid json\x7d\n\n"

/-- An upstream answering 2xx with an event-stream content type and the
invalid-JSON SSE body. -/
def oracleSSEBad : Nat → AttemptOutcome :=
  fun _ => AttemptOutcome.success (some "text/event-stream") none sseBadBodyFix

/-- An upstream that always fails with HTTP 503. -/
def oracle503 : Nat → AttemptOutcome :=
  fun _ => AttemptOutcome.failure (RelayError.respErr 503 "Service Unavailable" Json.null)

/-- An upstream that always fails with HTTP 404. -/
def oracle404 : Nat → AttemptOutcome :=
  fun _ => AttemptOutcome.failure (RelayError.respErr 404 "Not Found" (Json.str "missing"))

/-- An upstream answering 2xx with a session header `s1`. -/
def oracleSess : Nat → AttemptOutcome :=
  fun _ => AttemptOutcome.success (some "application/json") (some "s1") fullReplyBodyFix

/-- An upstream answering 2xx with an empty session header. -/
def oracleSessEmpty : Nat → AttemptOutcome :=
  fun _ => AttemptOutcome.success (some "application/json") (some "") fullReplyBodyFix

/-- The expected linear backoff schedule: delays `1000 * attempt` for
`count` consecutive attempt numbers starting at `attempt`. -/
def linearDelays : Nat → Nat → List Nat
  | _, 0 => []
  | a, n + 1 => 1000 * a :: linearDelays (a + 1) n

/-! ## Helper lemmas -/

/-- The backoff schedule as a mapped range. -/
lemma linearDelays_eq_range : ∀ n a, linearDelays a n = (List.range n).map (fun i => 1000 * (a + i)) := by
  intro n
  induction n with
  | zero => intro a; rfl
  | succ k ih =>
    intro a
    rw [List.range_succ_eq_map]
    simp only [linearDelays, List.map_cons, List.map_map, List.cons.injEq, Nat.add_zero,
      true_and]
    rw [ih (a + 1)]
    apply List.map_congr_left
    intro i _
    simp only [Function.comp]
    omega

/-- With at least one unit of fuel, the loop body runs, so the final
attempt counter is at least the starting attempt number. -/
lemma attemptLoopAux_attempt_le (parse : String → Option Json) (oracle : Nat → AttemptOutcome)
    (retries : Nat) :
    ∀ remaining attempt sessId lastErr, 1 ≤ remaining →
      attempt ≤ (attemptLoopAux parse oracle retries remaining attempt sessId lastErr).attemptsMade := by
  intro remaining
  induction remaining with
  | zero => intro attempt sessId lastErr h; omega
  | succ m ih =>
    intro attempt sessId lastErr _
    simp only [attemptLoopAux]
    cases oracle attempt with
    | success ct sh body => simp
    | failure e =>
      by_cases hc : isClientError e
      · simp [hc]
      · simp only [hc, Bool.false_eq_true, if_false]
        cases m with
        | zero => simp [attemptLoopAux]
        | succ m' =>
          exact le_trans (Nat.le_succ attempt) (ih (attempt + 1) sessId (some e) (by omega))

/-- One unfolding step of the attempt loop in the retryable-failure
case. -/
lemma attemptLoopAux_retry_step (parse : String → Option Json) (oracle : Nat → AttemptOutcome)
    (retries remaining attempt : Nat) (sessId : Option String) (lastErr : Option RelayError)
    (e : RelayError)
    (hA : oracle attempt = AttemptOutcome.failure e) (hB : isClientError e = false) :
    attemptLoopAux parse oracle retries (remaining + 1) attempt sessId lastErr =
      { result := (attemptLoopAux parse oracle retries remaining (attempt + 1) sessId (some e)).result,
        sessionId := (attemptLoopAux parse oracle retries remaining (attempt + 1) sessId (some e)).sessionId,
        attemptsMade := (attemptLoopAux parse oracle retries remaining (attempt + 1) sessId (some e)).attemptsMade,
        sleeps := (if attempt < retries then [1000 * attempt] else []) ++
          (attemptLoopAux parse oracle retries remaining (attempt + 1) sessId (some e)).sleeps,
        sentHeaders := sessId ::
          (attemptLoopAux parse oracle retries remaining (attempt + 1) sessId (some e)).sentHeaders } := by
  simp only [attemptLoopAux, hA, hB, Bool.false_eq_true, if_false]

/-- When every attempt from `attempt` through `retries` fails with a
retryable error, the loop runs all of them, sleeps `1000 * k` after
every non-final attempt `k`, sends the unchanged session header each
time, and finally throws the failure of the last attempt. -/
lemma attemptLoopAux_all_fail (parse : String → Option Json) (oracle : Nat → AttemptOutcome)
    (retries : Nat) (err : Nat → RelayError)
    (hfail : ∀ k, 1 ≤ k → k ≤ retries → oracle k = AttemptOutcome.failure (err k))
    (hnc : ∀ k, 1 ≤ k → k ≤ retries → isClientError (err k) = false) :
    ∀ remaining attempt sessId lastErr,
      remaining + attempt = retries + 1 → 1 ≤ attempt → attempt ≤ retries →
      attemptLoopAux parse oracle retries remaining attempt sessId lastErr =
        { result := Except.error (some (err retries)), sessionId := sessId,
          attemptsMade := retries,
          sleeps := linearDelays attempt (retries - attempt),
          sentHeaders := List.replicate (retries - attempt + 1) sessId } := by
  intro remaining
  induction remaining with
  | zero => intro attempt sessId lastErr h1 h2 h3; omega
  | succ m ih =>
    intro attempt sessId lastErr h1 h2 h3
    have hA : oracle attempt = AttemptOutcome.failure (err attempt) := hfail attempt h2 h3
    have hB : isClientError (err attempt) = false := hnc attempt h2 h3
    cases m with
    | zero =>
      have heq : attempt = retries := by omega
      subst heq
      simp only [attemptLoopAux, hA, hB, Bool.false_eq_true, if_false, Nat.lt_irrefl,
        List.nil_append, Nat.sub_self, linearDelays, Nat.add_sub_cancel, List.replicate_one]
      rfl
    | succ m' =>
      have hlt : attempt < retries := by omega
      have h4 : retries - attempt = (retries - (attempt + 1)) + 1 := by omega
      rw [attemptLoopAux_retry_step parse oracle retries (m' + 1) attempt sessId lastErr
            (err attempt) hA hB,
          ih (attempt + 1) sessId (some (err attempt)) (by omega) (by omega) (by omega),
          if_pos hlt, h4]
      rfl

/-- A session id already held is never changed by the header-adoption
step. -/
lemma adoptSession_some (s : String) (header : Option String) :
    adoptSession (some s) header = some s := by
  cases header <;> rfl

/-- Once the session id is set it survives the whole attempt loop and
is attached to every attempt of the loop. -/
lemma attemptLoopAux_session_kept (parse : String → Option Json) (oracle : Nat → AttemptOutcome)
    (retries : Nat) (s : String) :
    ∀ remaining attempt lastErr,
      (attemptLoopAux parse oracle retries remaining attempt (some s) lastErr).sessionId = some s ∧
      ∀ x ∈ (attemptLoopAux parse oracle retries remaining attempt (some s) lastErr).sentHeaders,
        x = some s := by
  intro remaining
  induction remaining with
  | zero =>
    intro attempt lastErr
    exact ⟨rfl, by intro x hx; simp only [attemptLoopAux, List.not_mem_nil] at hx⟩
  | succ m ih =>
    intro attempt lastErr
    simp only [attemptLoopAux]
    cases oracle attempt with
    | success ct sh body =>
      refine ⟨adoptSession_some s sh, ?_⟩
      intro x hx
      simpa using hx
    | failure e =>
      by_cases hc : isClientError e
      · refine ⟨by simp [hc], ?_⟩
        intro x hx
        simp only [hc, if_true, List.mem_singleton] at hx
        exact hx
      · refine ⟨by simp only [hc, Bool.false_eq_true, if_false]; exact (ih (attempt + 1) (some e)).1, ?_⟩
        intro x hx
        simp only [hc, Bool.false_eq_true, if_false, List.mem_cons] at hx
        rcases hx with h | h
        · exact h
        · exact (ih (attempt + 1) (some e)).2 x h

/-- Starting with no session id, the loop never adopts an empty header
value. -/
lemma attemptLoopAux_no_empty_adoption (parse : String → Option Json)
    (oracle : Nat → AttemptOutcome) (retries : Nat) :
    ∀ remaining attempt lastErr,
      (attemptLoopAux parse oracle retries remaining attempt none lastErr).sessionId = some "" →
      False := by
  intro remaining
  induction remaining with
  | zero =>
    intro attempt lastErr h
    simp only [attemptLoopAux] at h
    exact Option.noConfusion h
  | succ m ih =>
    intro attempt lastErr h
    cases hO : oracle attempt with
    | success ct sh body =>
      simp only [attemptLoopAux, hO] at h
      cases sh with
      | none => exact Option.noConfusion h
      | some hd =>
        simp only [adoptSession] at h
        by_cases hne : hd ≠ ""
        · rw [if_pos hne] at h
          simp only [Option.some.injEq] at h
          exact hne h
        · rw [if_neg hne] at h
          exact Option.noConfusion h
    | failure e =>
      by_cases hc : isClientError e
      · simp only [attemptLoopAux, hO, hc, if_true] at h
        exact Option.noConfusion h
      · simp only [attemptLoopAux, hO, hc, Bool.false_eq_true, if_false] at h
        exact ih (attempt + 1) (some e) h

/-- Splitting a newline-free line leaves it whole. -/
lemma splitOnNl_no_nl : ∀ l : List Char, ('\n' : Char) ∉ l → splitOnNl l = [l] := by
  intro l
  induction l with
  | nil => intro _; rfl
  | cons c rest ih =>
    intro h
    have hc : ¬ c = '\n' := fun hh => h (hh ▸ List.mem_cons_self c rest)
    have hrest : ('\n' : Char) ∉ rest := fun hm => h (List.mem_cons_of_mem c hm)
    simp only [splitOnNl, if_neg hc, ih hrest]

/-- Splitting after a newline-free first line peels it off. -/
lemma splitOnNl_append : ∀ (l t : List Char), ('\n' : Char) ∉ l →
    splitOnNl (l ++ '\n' :: t) = l :: splitOnNl t := by
  intro l
  induction l with
  | nil => intro t _; simp [splitOnNl]
  | cons c rest ih =>
    intro t h
    have hc : ¬ c = '\n' := fun hh => h (hh ▸ List.mem_cons_self c rest)
    have hrest : ('\n' : Char) ∉ rest := fun hm => h (List.mem_cons_of_mem c hm)
    simp only [List.cons_append, splitOnNl, List.append_eq, if_neg hc, ih t hrest]

/-- Splitting on newlines inverts joining newline-free lines. -/
lemma splitOnNl_intercalateNl : ∀ parts : List (List Char), parts ≠ [] →
    (∀ p ∈ parts, ('\n' : Char) ∉ p) → splitOnNl (intercalateNl parts) = parts := by
  intro parts
  induction parts with
  | nil => intro h _; exact absurd rfl h
  | cons l ls ih =>
    intro _ hnl
    cases ls with
    | nil =>
      exact splitOnNl_no_nl l (hnl l (List.mem_cons_self l []))
    | cons l₂ ls₂ =>
      have h1 : intercalateNl (l :: l₂ :: ls₂) = l ++ '\n' :: intercalateNl (l₂ :: ls₂) := rfl
      rw [h1, splitOnNl_append l _ (hnl l (List.mem_cons_self l _)),
        ih (by simp) (fun p hp => hnl p (List.mem_cons_of_mem l hp))]

/-- Lines without the data-field marker contribute nothing. -/
lemma accumData_skip : ∀ (lines : List (List Char)) (acc : List Char),
    (∀ l ∈ lines, l.take 6 ≠ dataLineStart) → accumData lines acc = acc := by
  intro lines
  induction lines with
  | nil => intro acc _; rfl
  | cons l rest ih =>
    intro acc h
    have hl : l.take 6 ≠ dataLineStart := h l (List.mem_cons_self l rest)
    simp only [accumData, if_neg hl]
    exact ih acc (fun x hx => h x (List.mem_cons_of_mem l hx))

/-- Consecutive data lines accumulate their fragments in order. -/
lemma accumData_data_lines : ∀ (fs : List (List Char)) (tail : List (List Char)) (acc : List Char),
    (∀ f ∈ fs, trimChars f ≠ doneMarker) →
    accumData (fs.map (fun f => dataLineStart ++ f) ++ tail) acc =
      accumData tail (acc ++ fs.flatten) := by
  intro fs
  induction fs with
  | nil => intro tail acc _; simp
  | cons f fs ih =>
    intro tail acc h
    have h6 : dataLineStart.length = 6 := rfl
    have htake : (dataLineStart ++ f).take 6 = dataLineStart := by
      rw [← h6]; exact List.take_left dataLineStart f
    have hdrop : (dataLineStart ++ f).drop 6 = f := by
      rw [← h6]; exact List.drop_left dataLineStart f
    have hdone : trimChars f ≠ doneMarker := h f (List.mem_cons_self f fs)
    simp only [List.map_cons, List.cons_append, accumData, htake, hdrop, if_true,
      if_neg hdone, List.append_eq]
    rw [ih tail (acc ++ f) (fun x hx => h x (List.mem_cons_of_mem f hx))]
    simp [List.append_assoc]

/-- A blank line followed by a `data: [DONE]` line stops accumulation,
whatever follows. -/
lemma accumData_done (tail : List (List Char)) (acc : List Char) :
    accumData (([] : List Char) :: (dataLineStart ++ doneMarker) :: tail) acc = acc := by
  have h6 : dataLineStart.length = 6 := rfl
  have htake : (dataLineStart ++ doneMarker).take 6 = dataLineStart := by
    rw [← h6]; exact List.take_left dataLineStart doneMarker
  have hdrop : (dataLineStart ++ doneMarker).drop 6 = doneMarker := by
    rw [← h6]; exact List.drop_left dataLineStart doneMarker
  have hskip : (([] : List Char)).take 6 ≠ dataLineStart := by decide
  have htrim : trimChars doneMarker = doneMarker := by rfl
  simp only [accumData, if_neg hskip, htake, hdrop, htrim, if_true]

/-- Looking up `id` after the in-place overwrite always finds the new
value. -/
lemma lookupField_setIdFields : ∀ (fields : List (String × Json)) (v : Json),
    lookupField (setIdFields fields v) "id" = some v := by
  intro fields
  induction fields with
  | nil => intro v; simp [setIdFields, lookupField]
  | cons kv rest ih =>
    intro v
    obtain ⟨k, w⟩ := kv
    by_cases hk : k = "id"
    · subst hk
      simp [setIdFields, lookupField]
    · simp only [setIdFields, if_neg hk, lookupField]
      exact ih v

/-- A value passing the full-reply test is an object. -/
lemma isFullReply_obj (d : Json) (h : isFullReply d = true) :
    ∃ fields, d = Json.obj fields := by
  cases d with
  | obj fields => exact ⟨fields, rfl⟩
  | null => simp [isFullReply, Json.truthy] at h
  | bool b => simp [isFullReply, isJsonrpc20, Json.get?] at h
  | num n => simp [isFullReply, isJsonrpc20, Json.get?] at h
  | str s => simp [isFullReply, isJsonrpc20, Json.get?] at h
  | arr elems => simp [isFullReply, isJsonrpc20, Json.get?] at h

/-- Re-stamping a full reply always leaves the inbound id readable. -/
lemma get?_setId (d : Json) (v : Json) (h : isFullReply d = true) :
    (setId d (some v)).get? "id" = some v := by
  obtain ⟨fields, rfl⟩ := isFullReply_obj d h
  simp only [setId, Json.get?]
  exact lookupField_setIdFields fields v

/-- Wrapping a payload stamps the inbound id. -/
lemma get?_wrapResult (v payload : Json) :
    (wrapResult (some v) payload).get? "id" = some v := by
  rfl

/-! ## Claim theorems -/

/-- C8: an input unit that is not valid JSON produces exactly one
outbound message with absent id and error code -32700, message
"Invalid JSON-RPC request" and the raw parser failure text as data;
no HTTP attempt is made and no backoff is slept for that unit, the
session state is untouched, and later units are served as if the
malformed one had not occurred. -/
theorem claimC8_parse_failure (parseE : String → Except String Json) (cfg : BridgeConfig)
    (oracle : Nat → AttemptOutcome) (crashMsg line msg : String)
    (sessId : Option String) (rest : List (String × (Nat → AttemptOutcome)))
    (hparse : parseE line = Except.error msg) :
    handleMCPRequest parseE cfg oracle crashMsg line sessId =
      { output := some (mkErrorResponse none (-32700) "Invalid JSON-RPC request"
          (some (Json.str msg))),
        sessionId := sessId, attemptsMade := 0, sleeps := [] } ∧
    runUnits parseE cfg crashMsg ((line, oracle) :: rest) sessId =
      some (mkErrorResponse none (-32700) "Invalid JSON-RPC request" (some (Json.str msg))) ::
        runUnits parseE cfg crashMsg rest sessId := by
  have h1 : handleMCPRequest parseE cfg oracle crashMsg line sessId =
      { output := some (mkErrorResponse none (-32700) "Invalid JSON-RPC request"
          (some (Json.str msg))),
        sessionId := sessId, attemptsMade := 0, sleeps := [] } := by
    simp only [handleMCPRequest, hparse, parseErrorResponse]
  refine ⟨h1, ?_⟩
  simp only [runUnits, h1]

/-- C8 witness: a concrete malformed unit. -/
theorem claimC8_parse_failure_witness :
    handleMCPRequest parseFix (cfgFix 3) (oracleJsonBody fullReplyBodyFix) "TypeError"
      "not json" none =
      { output := some (mkErrorResponse none (-32700) "Invalid JSON-RPC request"
          (some (Json.str "Unexpected token"))),
        sessionId := none, attemptsMade := 0, sleeps := [] } ∧
    runUnits parseFix (cfgFix 3) "TypeError"
        [("not json", oracleJsonBody fullReplyBodyFix), (reqLineFix, oracleJsonBody fullReplyBodyFix)] none =
      some (mkErrorResponse none (-32700) "Invalid JSON-RPC request"
          (some (Json.str "Unexpected token"))) ::
        runUnits parseFix (cfgFix 3) "TypeError"
          [(reqLineFix, oracleJsonBody fullReplyBodyFix)] none :=
  claimC8_parse_failure parseFix (cfgFix 3) (oracleJsonBody fullReplyBodyFix) "TypeError"
    "not json" "Unexpected token" none [(reqLineFix, oracleJsonBody fullReplyBodyFix)] rfl

/-- C9: the empty-payload test of `processMCPRequest` is JavaScript
falsiness plus a zero `Object.keys` count, so a successful upstream
response whose body parses to 0, false, null, or an object with no
keys yields no outbound message, even when the inbound id is present. -/
theorem claimC9_falsy_payload (parse : String → Option Json) (cfg : BridgeConfig)
    (oracle : Nat → AttemptOutcome) (request : MCPRequest) (sessId : Option String) (d : Json)
    (hok : (attemptLoop parse oracle cfg.retries sessId).result = Except.ok d)
    (hd : d = Json.num 0 ∨ d = Json.bool false ∨ d = Json.null ∨ d = Json.obj []) :
    (processMCPRequest parse cfg oracle request sessId).outcome = ProcOutcome.noResponse := by
  have hemp : isEmptyResponse d = true := by
    rcases hd with h | h | h | h <;> subst h <;> rfl
  simp only [processMCPRequest, hok, hemp, if_true]

/-- C9 witness: upstream body `0`, inbound id present. -/
theorem claimC9_falsy_payload_witness :
    (attemptLoop (parseOpt parseFix) (oracleJsonBody "0") (cfgFix 1).retries none).result =
      Except.ok (Json.num 0) ∧
    (processMCPRequest (parseOpt parseFix) (cfgFix 1) (oracleJsonBody "0")
      { id := some (Json.num 1) } none).outcome = ProcOutcome.noResponse :=
  ⟨rfl, claimC9_falsy_payload (parseOpt parseFix) (cfgFix 1) (oracleJsonBody "0")
    { id := some (Json.num 1) } none (Json.num 0) rfl (Or.inl rfl)⟩

/-- C10: the attempt loop needs `retries ≥ 1` to be meaningful — with
`retries ≥ 1` at least one HTTP attempt runs, while with `retries = 0`
the loop body never runs, `makeHttpRequest` throws its uninitialized
`lastError` (`undefined`, modelled as `none`), and `createErrorResponse`
crashes dereferencing `error.response` of that `undefined` value, so
`processMCPRequest` ends in the crash outcome instead of a reply. -/
theorem claimC10_zero_retries (parse : String → Option Json) (oracle : Nat → AttemptOutcome)
    (sessId : Option String) (rid : Option Json) (cfg₁ cfg₂ : BridgeConfig)
    (h₁ : 1 ≤ cfg₁.retries) (h₂ : cfg₂.retries = 0) :
    1 ≤ (attemptLoop parse oracle cfg₁.retries sessId).attemptsMade ∧
    (attemptLoop parse oracle cfg₂.retries sessId).result = Except.error none ∧
    createErrorResponseOnThrown rid none = none ∧
    (processMCPRequest parse cfg₂ oracle { id := rid } sessId).outcome = ProcOutcome.crash := by
  refine ⟨?_, ?_, rfl, ?_⟩
  · exact attemptLoopAux_attempt_le parse oracle cfg₁.retries cfg₁.retries 1 sessId none h₁
  · rw [h₂]; rfl
  · simp only [processMCPRequest, attemptLoop, h₂, attemptLoopAux, createErrorResponseOnThrown]

/-- C10 witness: configurations with one retry and with zero retries. -/
theorem claimC10_zero_retries_witness :
    1 ≤ (attemptLoop (parseOpt parseFix) (oracleJsonBody "0") (cfgFix 1).retries none).attemptsMade ∧
    (attemptLoop (parseOpt parseFix) (oracleJsonBody "0") (cfgFix 0).retries none).result =
      Except.error none ∧
    createErrorResponseOnThrown (some (Json.num 1)) none = none ∧
    (processMCPRequest (parseOpt parseFix) (cfgFix 0) (oracleJsonBody "0")
      { id := some (Json.num 1) } none).outcome = ProcOutcome.crash :=
  claimC10_zero_retries (parseOpt parseFix) (oracleJsonBody "0") none (some (Json.num 1))
    (cfgFix 1) (cfgFix 0) (by decide) rfl

/-- C1 counterexample: the inbound unit parses with id 1, the upstream
call succeeds with the non-empty body of two characters parsing to an
empty object, yet no outbound message is produced — refuting "for any
non-empty body exactly one outbound message is emitted". -/
theorem claimC1_counterexample :
    parseFix reqLineFix = Except.ok reqJsonFix ∧
    reqJsonFix.get? "id" = some (Json.num 1) ∧
    (attemptLoop (parseOpt parseFix) (oracleJsonBody "\x7b\x7d") (cfgFix 1).retries none).result =
      Except.ok (Json.obj []) ∧
    ("\x7b\x7d" : String) ≠ "" ∧
    (handleMCPRequest parseFix (cfgFix 1) (oracleJsonBody "\x7b\x7d") "TypeError"
      reqLineFix none).output = none :=
  ⟨rfl, rfl, rfl, by decide, rfl⟩

/-- C1 (amended): for an inbound unit that parses with a present id,
if the upstream call succeeds and its normalized payload is non-empty
under the dispatcher's emptiness test, exactly one outbound message is
emitted, a full-reply payload is re-stamped with the inbound id, any
other payload is wrapped as a result, and in both cases the outbound
id equals the inbound id verbatim. -/
theorem claimC1_id_echo (parseE : String → Except String Json) (cfg : BridgeConfig)
    (oracle : Nat → AttemptOutcome) (crashMsg line : String) (sessId : Option String)
    (j idv d : Json)
    (hparse : parseE line = Except.ok j)
    (hid : j.get? "id" = some idv)
    (hok : (attemptLoop (parseOpt parseE) oracle cfg.retries sessId).result = Except.ok d)
    (hne : isEmptyResponse d = false) :
    (handleMCPRequest parseE cfg oracle crashMsg line sessId).output =
      some (if isFullReply d then setId d (some idv) else wrapResult (some idv) d) ∧
    (if isFullReply d then setId d (some idv) else wrapResult (some idv) d).get? "id" =
      some idv := by
  constructor
  · simp only [handleMCPRequest, hparse, processMCPRequest, hid, hok, hne,
      Bool.false_eq_true, if_false]
    by_cases hf : isFullReply d
    · simp only [hf, if_true]
    · simp only [hf, Bool.false_eq_true, if_false]
  · by_cases hf : isFullReply d
    · rw [if_pos hf]
      exact get?_setId d idv hf
    · rw [if_neg hf]
      exact get?_wrapResult idv d

/-- C1 witness: upstream returns a full reply carrying id 7; the
outbound message carries the inbound id 1. -/
theorem claimC1_id_echo_witness :
    (handleMCPRequest parseFix (cfgFix 1) (oracleJsonBody fullReplyBodyFix) "TypeError"
      reqLineFix none).output =
      some (if isFullReply fullReplyJsonFix then setId fullReplyJsonFix (some (Json.num 1))
        else wrapResult (some (Json.num 1)) fullReplyJsonFix) ∧
    (if isFullReply fullReplyJsonFix then setId fullReplyJsonFix (some (Json.num 1))
      else wrapResult (some (Json.num 1)) fullReplyJsonFix).get? "id" = some (Json.num 1) :=
  claimC1_id_echo parseFix (cfgFix 1) (oracleJsonBody fullReplyBodyFix) "TypeError"
    reqLineFix none reqJsonFix (Json.num 1) fullReplyJsonFix rfl rfl rfl rfl

/-- C2 counterexample: a notification (no id member) parses, the
upstream answers with a non-empty full-reply body, and the bridge
emits one outbound message — refuting "zero outbound units regardless
of upstream response". -/
theorem claimC2_counterexample :
    parseFix notifLineFix = Except.ok notifJsonFix ∧
    notifJsonFix.get? "id" = none ∧
    (handleMCPRequest parseFix (cfgFix 1) (oracleJsonBody fullReplyBodyFix) "TypeError"
      notifLineFix none).output =
      some (Json.obj [("jsonrpc", Json.str "2.0"), ("result", Json.obj [])]) :=
  ⟨rfl, rfl, rfl⟩

/-- C2 (amended): for a notification (inbound unit parsing with no id),
zero outbound messages are produced whenever the upstream response
normalizes to an empty payload under the dispatcher's emptiness test;
the code does not special-case notifications, so a non-empty upstream
payload still produces an outbound unit. -/
theorem claimC2_notification_silent (parseE : String → Except String Json) (cfg : BridgeConfig)
    (oracle : Nat → AttemptOutcome) (crashMsg line : String) (sessId : Option String)
    (j d : Json)
    (hparse : parseE line = Except.ok j)
    (hid : j.get? "id" = none)
    (hok : (attemptLoop (parseOpt parseE) oracle cfg.retries sessId).result = Except.ok d)
    (hempty : isEmptyResponse d = true) :
    (handleMCPRequest parseE cfg oracle crashMsg line sessId).output = none := by
  simp only [handleMCPRequest, hparse, processMCPRequest, hid, hok, hempty, if_true]

/-- C2 witness: a notification whose upstream acknowledges with an
empty body. -/
theorem claimC2_notification_silent_witness :
    (handleMCPRequest parseFix (cfgFix 1) (oracleJsonBody "") "TypeError"
      notifLineFix none).output = none :=
  claimC2_notification_silent parseFix (cfgFix 1) (oracleJsonBody "") "TypeError"
    notifLineFix none notifJsonFix (Json.str "") rfl rfl rfl rfl

/-- C3: when every attempt fails retryably (status ≥ 500 here, network
failures alike), the relay makes exactly the configured number of
attempts, sleeps `base × k` after each non-final attempt `k` (1×1000ms
after attempt 1, 2×1000ms after attempt 2, ...), and surfaces the last
observed failure as a -32000 error reply. -/
theorem claimC3_linear_backoff (parse : String → Option Json) (cfg : BridgeConfig)
    (oracle : Nat → AttemptOutcome) (request : MCPRequest) (sessId : Option String)
    (err : Nat → RelayError) (status : Nat) (statusText : String) (data : Json)
    (hR : 1 ≤ cfg.retries)
    (hfail : ∀ k, 1 ≤ k → k ≤ cfg.retries → oracle k = AttemptOutcome.failure (err k))
    (hnc : ∀ k, 1 ≤ k → k ≤ cfg.retries → isClientError (err k) = false)
    (hlast : err cfg.retries = RelayError.respErr status statusText data)
    (_h5 : 500 ≤ status) :
    (processMCPRequest parse cfg oracle request sessId).attemptsMade = cfg.retries ∧
    (processMCPRequest parse cfg oracle request sessId).sleeps =
      (List.range (cfg.retries - 1)).map (fun i => 1000 * (i + 1)) ∧
    (processMCPRequest parse cfg oracle request sessId).outcome =
      ProcOutcome.response (mkErrorResponse request.id (-32000)
        ("HTTP " ++ toString status ++ ": " ++ statusText) (some data)) := by
  have hloop := attemptLoopAux_all_fail parse oracle cfg.retries err hfail hnc
    cfg.retries 1 sessId none (by omega) (by omega) hR
  simp only [processMCPRequest, attemptLoop, hloop, hlast, createErrorResponseOnThrown,
    createErrorResponse]
  refine ⟨trivial, ?_, trivial⟩
  rw [linearDelays_eq_range]
  apply List.map_congr_left
  intro i _
  omega

/-- C3 witness: three configured retries, 503 on every attempt. -/
theorem claimC3_linear_backoff_witness :
    (processMCPRequest (parseOpt parseFix) (cfgFix 3) oracle503
      { id := some (Json.num 1) } none).attemptsMade = 3 ∧
    (processMCPRequest (parseOpt parseFix) (cfgFix 3) oracle503
      { id := some (Json.num 1) } none).sleeps =
      (List.range 2).map (fun i => 1000 * (i + 1)) ∧
    (processMCPRequest (parseOpt parseFix) (cfgFix 3) oracle503
      { id := some (Json.num 1) } none).outcome =
      ProcOutcome.response (mkErrorResponse (some (Json.num 1)) (-32000)
        ("HTTP " ++ toString 503 ++ ": " ++ "Service Unavailable") (some Json.null)) :=
  claimC3_linear_backoff (parseOpt parseFix) (cfgFix 3) oracle503
    { id := some (Json.num 1) } none
    (fun _ => RelayError.respErr 503 "Service Unavailable" Json.null)
    503 "Service Unavailable" Json.null
    (by decide) (fun k _ _ => rfl) (fun k _ _ => rfl) rfl (by decide)

/-- C5: the session token is set at most once — a held token survives
every relay call unchanged and is attached as the session header to
every attempt of every subsequent call; from the unset state a 2xx
response header is adopted when non-empty and an empty header value is
never adopted. -/
theorem claimC5_session_at_most_once (parse : String → Option Json) (cfg : BridgeConfig)
    (oracle oracle₀ oracle₁ : Nat → AttemptOutcome) (request : MCPRequest) (s h : String)
    (ct ct₀ : Option String) (body body₀ : String)
    (hR : 1 ≤ cfg.retries)
    (hadopt : oracle₁ 1 = AttemptOutcome.success ct (some h) body) (hne : h ≠ "")
    (hempty : oracle₀ 1 = AttemptOutcome.success ct₀ (some "") body₀) :
    ((processMCPRequest parse cfg oracle request (some s)).sessionId = some s ∧
      ∀ x ∈ (processMCPRequest parse cfg oracle request (some s)).sentHeaders, x = some s) ∧
    (processMCPRequest parse cfg oracle₁ request none).sessionId = some h ∧
    (processMCPRequest parse cfg oracle₀ request none).sessionId = none := by
  obtain ⟨m, hm⟩ : ∃ m, cfg.retries = m + 1 := ⟨cfg.retries - 1, by omega⟩
  refine ⟨⟨?_, ?_⟩, ?_, ?_⟩
  · exact (attemptLoopAux_session_kept parse oracle cfg.retries s cfg.retries 1 none).1
  · exact (attemptLoopAux_session_kept parse oracle cfg.retries s cfg.retries 1 none).2
  · simp only [processMCPRequest, attemptLoop, hm, attemptLoopAux, hadopt, adoptSession,
      if_pos hne]
  · simp only [processMCPRequest, attemptLoop, hm, attemptLoopAux, hempty, adoptSession]
    rfl

/-- C5 witness: a held token `s0` is kept and attached; from the unset
state the header `s1` is adopted and an empty header is not. -/
theorem claimC5_session_at_most_once_witness :
    ((processMCPRequest (parseOpt parseFix) (cfgFix 1) (oracleJsonBody "0")
        { id := some (Json.num 1) } (some "s0")).sessionId = some "s0" ∧
      ∀ x ∈ (processMCPRequest (parseOpt parseFix) (cfgFix 1) (oracleJsonBody "0")
        { id := some (Json.num 1) } (some "s0")).sentHeaders, x = some "s0") ∧
    (processMCPRequest (parseOpt parseFix) (cfgFix 1) oracleSess
      { id := some (Json.num 1) } none).sessionId = some "s1" ∧
    (processMCPRequest (parseOpt parseFix) (cfgFix 1) oracleSessEmpty
      { id := some (Json.num 1) } none).sessionId = none :=
  claimC5_session_at_most_once (parseOpt parseFix) (cfgFix 1)
    (oracleJsonBody "0") oracleSessEmpty oracleSess { id := some (Json.num 1) }
    "s0" "s1" (some "application/json") (some "application/json")
    fullReplyBodyFix fullReplyBodyFix (by decide) rfl (by decide) rfl

/-- C4: a first attempt failing with a status in [400,500) is never
retried — exactly one attempt runs, no backoff is slept, and the
surfaced reply is the -32000 error with message
"HTTP <status>: <statusText>" carrying the inbound id. -/
theorem claimC4_client_error_no_retry (parse : String → Option Json) (cfg : BridgeConfig)
    (oracle : Nat → AttemptOutcome) (request : MCPRequest) (sessId : Option String)
    (status : Nat) (statusText : String) (data : Json)
    (hR : 1 ≤ cfg.retries)
    (h1 : oracle 1 = AttemptOutcome.failure (RelayError.respErr status statusText data))
    (h4 : 400 ≤ status) (h5 : status < 500) :
    (processMCPRequest parse cfg oracle request sessId).attemptsMade = 1 ∧
    (processMCPRequest parse cfg oracle request sessId).sleeps = [] ∧
    (processMCPRequest parse cfg oracle request sessId).outcome =
      ProcOutcome.response (mkErrorResponse request.id (-32000)
        ("HTTP " ++ toString status ++ ": " ++ statusText) (some data)) := by
  obtain ⟨m, hm⟩ : ∃ m, cfg.retries = m + 1 := ⟨cfg.retries - 1, by omega⟩
  have hc : isClientError (RelayError.respErr status statusText data) = true := by
    simp only [isClientError, Bool.and_eq_true, decide_eq_true_eq]
    omega
  simp only [processMCPRequest, attemptLoop, hm, attemptLoopAux, h1, hc, if_true,
    createErrorResponseOnThrown, createErrorResponse]
  exact ⟨trivial, trivial, trivial⟩

/-- C4 witness: a 404 on the first attempt with three configured
retries. -/
theorem claimC4_client_error_no_retry_witness :
    (processMCPRequest (parseOpt parseFix) (cfgFix 3) oracle404
      { id := some (Json.num 1) } none).attemptsMade = 1 ∧
    (processMCPRequest (parseOpt parseFix) (cfgFix 3) oracle404
      { id := some (Json.num 1) } none).sleeps = [] ∧
    (processMCPRequest (parseOpt parseFix) (cfgFix 3) oracle404
      { id := some (Json.num 1) } none).outcome =
      ProcOutcome.response (mkErrorResponse (some (Json.num 1)) (-32000)
        ("HTTP " ++ toString 404 ++ ": " ++ "Not Found") (some (Json.str "missing"))) :=
  claimC4_client_error_no_retry (parseOpt parseFix) (cfgFix 3) oracle404
    { id := some (Json.num 1) } none 404 "Not Found" (Json.str "missing")
    (by decide) rfl (by decide) (by decide)

/-- C6: when one JSON text is split into fragments carried on
consecutive data-field lines, followed by a blank line, a
`data: [DONE]` sentinel line and arbitrary further lines, the
normalizer concatenates the fragments in order, stops at the sentinel,
and decodes exactly what parsing the unsplit text yields. -/
theorem claimC6_sse_roundtrip (parse : String → Option Json)
    (fs rest : List (List Char)) (j : Json)
    (hnl : ∀ f ∈ fs, ('\n' : Char) ∉ f)
    (hnd : ∀ f ∈ fs, trimChars f ≠ doneMarker)
    (hjoin : fs.flatten ≠ [])
    (hrest : ∀ l ∈ rest, ('\n' : Char) ∉ l)
    (hparse : parse (String.mk fs.flatten) = some j) :
    parseSSEResponse parse (String.mk (intercalateNl
      (fs.map (fun f => dataLineStart ++ f) ++
        ([] :: (dataLineStart ++ doneMarker) :: rest)))) = j := by
  have hparts : ∀ p ∈ fs.map (fun f => dataLineStart ++ f) ++
      ([] :: (dataLineStart ++ doneMarker) :: rest), ('\n' : Char) ∉ p := by
    intro p hp
    rcases List.mem_append.mp hp with hq | hq
    · obtain ⟨f, hf, rfl⟩ := List.mem_map.mp hq
      intro hmem
      rcases List.mem_append.mp hmem with h1 | h1
      · revert h1; decide
      · exact hnl f hf h1
    · rcases List.mem_cons.mp hq with rfl | hq2
      · exact List.not_mem_nil '\n'
      · rcases List.mem_cons.mp hq2 with rfl | hq3
        · decide
        · exact hrest p hq3
  have hne : fs.map (fun f => dataLineStart ++ f) ++
      ([] :: (dataLineStart ++ doneMarker) :: rest) ≠ [] := by
    intro hcontra
    rcases List.append_eq_nil.mp hcontra with ⟨_, h2⟩
    exact List.noConfusion h2
  have htl : (String.mk (intercalateNl (fs.map (fun f => dataLineStart ++ f) ++
      ([] :: (dataLineStart ++ doneMarker) :: rest)))).toList =
      intercalateNl (fs.map (fun f => dataLineStart ++ f) ++
        ([] :: (dataLineStart ++ doneMarker) :: rest)) := rfl
  have hacc : accumData (splitOnNl (String.mk (intercalateNl
      (fs.map (fun f => dataLineStart ++ f) ++
        ([] :: (dataLineStart ++ doneMarker) :: rest)))).toList) [] = fs.flatten := by
    rw [htl, splitOnNl_intercalateNl _ hne hparts,
      accumData_data_lines fs _ [] hnd, accumData_done]
    simp
  simp only [parseSSEResponse, hacc, hparse]
  rw [if_pos hjoin]

/-- C6 witness: the JSON text of one object split across three data
lines, terminated by a `[DONE]` sentinel. -/
theorem claimC6_sse_roundtrip_witness :
    parseSSEResponse parseC6Fix (String.mk (intercalateNl
      (["\x7b\"a\"".toList, ":1".toList, "\x7d".toList].map (fun f => dataLineStart ++ f) ++
        ([] :: (dataLineStart ++ doneMarker) :: [])))) = Json.obj [("a", Json.num 1)] :=
  claimC6_sse_roundtrip parseC6Fix ["\x7b\"a\"".toList, ":1".toList, "\x7d".toList] []
    (Json.obj [("a", Json.num 1)])
    (by decide) (by decide) (by decide) (by decide) (by rfl)

/-- C7: an event-stream body whose accumulated data text is non-empty
but unparseable yields the placeholder value instead of raising, and
the dispatcher wraps that placeholder as the `result` of the outbound
message; an event-stream body with no data-field lines at all yields a
null result. -/
theorem claimC7_sse_parse_failure (parse : String → Option Json) (cfg : BridgeConfig)
    (oracle : Nat → AttemptOutcome) (request : MCPRequest) (sessId : Option String)
    (ct sh : Option String) (body body₂ : String)
    (hsse : isSSEContentType ct = true)
    (hacc : accumData (splitOnNl body.toList) [] ≠ [])
    (hbad : parse (String.mk (accumData (splitOnNl body.toList) [])) = none)
    (hR : 1 ≤ cfg.retries)
    (h1 : oracle 1 = AttemptOutcome.success ct sh body)
    (hnodata : ∀ l ∈ splitOnNl body₂.toList, l.take 6 ≠ dataLineStart) :
    parseSSEResponse parse body = sseParseFailure ∧
    (processMCPRequest parse cfg oracle request sessId).outcome =
      ProcOutcome.response (wrapResult request.id sseParseFailure) ∧
    parseSSEResponse parse body₂ = Json.null := by
  have hp1 : parseSSEResponse parse body = sseParseFailure := by
    simp only [parseSSEResponse, hbad]
    rw [if_pos hacc]
  refine ⟨hp1, ?_, ?_⟩
  · obtain ⟨m, hm⟩ : ∃ m, cfg.retries = m + 1 := ⟨cfg.retries - 1, by omega⟩
    have hnb : normalizeBody parse ct body = sseParseFailure := by
      simp only [normalizeBody, hsse, if_true, hp1]
    have hee : isEmptyResponse sseParseFailure = false := rfl
    have hfr : isFullReply sseParseFailure = false := rfl
    simp only [processMCPRequest, attemptLoop, hm, attemptLoopAux, h1, hnb, hee, hfr,
      Bool.false_eq_true, if_false]
  · have hz : accumData (splitOnNl body₂.toList) [] = [] :=
      accumData_skip (splitOnNl body₂.toList) [] hnodata
    simp only [parseSSEResponse, hz, ne_eq, not_true_eq_false, if_false]

/-- C7 witness: the spec scenario `data: \x7binvalid json\x7d` against
a parse that rejects it, and a data-free body. -/
theorem claimC7_sse_parse_failure_witness :
    parseSSEResponse parseNoneFix sseBadBodyFix = sseParseFailure ∧
    (processMCPRequest parseNoneFix (cfgFix 1) oracleSSEBad
      { id := some (Json.num 1) } none).outcome =
      ProcOutcome.response (wrapResult (some (Json.num 1)) sseParseFailure) ∧
    parseSSEResponse parseNoneFix "hello" = Json.null :=
  claimC7_sse_parse_failure parseNoneFix (cfgFix 1) oracleSSEBad
    { id := some (Json.num 1) } none (some "text/event-stream") none
    sseBadBodyFix "hello" (by rfl) (by decide) rfl (by decide) rfl (by decide)

end MCPBridge
